import Mathlib

/-!
Shallow embedding of the generic pagination/query-builder component
(`internal/pagination`, Go) of the `the-blade-api` repository, together
with theorems settling the specification claims about it.

The component builds two GORM queries (a count query and a fetch query)
from untrusted `QueryParams` and a trusted per-resource
`PaginationConfig`.  The embedding models the GORM chain as an explicit
`Query` record accumulating the clauses the source installs, and the
database as an oracle `Store` that may fail; `Paginate` additionally
returns the list of store calls it performed, so that statements about
which queries were executed (and how often) can be made.
-/

namespace Pagination

/-- A parameterized argument passed to the store alongside a `?`
placeholder: a string (search patterns, scalar filter values from the
query string), a timestamp (date-range bounds, modelled as an integer
instant), or some other opaque dynamic value (`interface{}`). -/
inductive Arg where
  | str : String → Arg
  | time : Int → Arg
  | dyn : Nat → Arg
deriving DecidableEq, Repr

/-- `JoinType` from the source: LEFT, INNER, RIGHT. -/
inductive JoinType where
  | left : JoinType
  | inner : JoinType
  | right : JoinType
deriving DecidableEq, Repr

/-- The SQL keyword the source stores in each `JoinType` constant. -/
def JoinType.toStr : JoinType → String
  | .left => "LEFT"
  | .inner => "INNER"
  | .right => "RIGHT"

/-- `JoinConfig`: a join configuration (table, ON condition, join type,
optional alias). -/
structure JoinConfig where
  table : String
  condition : String
  type : JoinType
  «alias» : String
deriving DecidableEq, Repr

/-- `SelectField`: a field expression with an optional alias. -/
structure SelectField where
  field : String
  «alias» : String
deriving DecidableEq, Repr

/-- `DateRange`: optional start/end instants (`*time.Time`; `none`
models a nil pointer). -/
structure DateRange where
  start : Option Int
  «end» : Option Int
deriving DecidableEq, Repr

/-- `DateField`: database column names for the start and end bounds of
a date-range filter. -/
structure DateField where
  start : String
  «end» : String
deriving DecidableEq, Repr

/-- `QueryParams`: the caller-supplied query parameters.  Go maps are
modelled as association lists (a deterministic stand-in for Go's
unordered map iteration); a `none` filter value models a nil
`interface{}` value. -/
structure QueryParams where
  page : Int
  pageSize : Int
  search : String
  filters : List (String × Option Arg)
  sortBy : String
  sortDesc : Bool
  dates : List (String × DateRange)
deriving DecidableEq, Repr

/-- `PaginationConfig`: the trusted per-resource configuration.  The
`model` field stands for the table name GORM derives from
`config.Model`. -/
structure PaginationConfig where
  model : String
  baseCondition : List (String × Arg)
  searchFields : List String
  filterFields : List (String × String)
  dateFields : List (String × DateField)
  sortFields : List String
  defaultSort : String
  defaultOrder : String
  relations : List String
  joins : List JoinConfig
  selectFields : List SelectField
  groupBy : List String
  having : List String
  distinct : Bool
  tableAlias : String
deriving DecidableEq, Repr

/-- The state of a GORM query chain: every clause the pagination
component can install on `p.db.Model(...)`. -/
structure Query where
  table : String
  selectClause : Option String
  distinct : Bool
  joins : List String
  whereClauses : List (String × List Arg)
  groupByClause : Option String
  havingClause : Option String
  orderBy : Option String
  preload : Option String
  offset : Option Int
  limit : Option Int
deriving DecidableEq, Repr

/-- `p.db.Model(config.Model)`: a fresh query on the model's table with
no clauses installed. -/
def emptyQuery (table : String) : Query :=
  { table := table
    selectClause := none
    distinct := false
    joins := []
    whereClauses := []
    groupByClause := none
    havingClause := none
    orderBy := none
    preload := none
    offset := none
    limit := none }

/-- `query.Where(cond, args...)`: appends one parameterized condition
(all conditions are AND-combined by the store). -/
def Query.addWhere (q : Query) (cond : String) (args : List Arg) : Query :=
  { q with whereClauses := q.whereClauses ++ [(cond, args)] }

/-- `Paginator.buildSelectClause`: model table (with optional alias),
custom select fields, DISTINCT. -/
def buildSelectClause (config : PaginationConfig) : Query :=
  let query := emptyQuery config.model
  let query :=
    if config.tableAlias ≠ "" then
      { query with table := config.model ++ " AS " ++ config.tableAlias }
    else query
  let query :=
    if 0 < config.selectFields.length then
      { query with
          selectClause := some (String.intercalate ", "
            (config.selectFields.map fun field =>
              if field.«alias» ≠ "" then field.field ++ " AS " ++ field.«alias»
              else field.field)) }
    else query
  if config.distinct then { query with distinct := true } else query

/-- The loop body of `Paginator.buildJoinClause`: one `<TYPE> JOIN
<table> [AS <alias>] ON <condition>` clause. -/
def joinStep (query : Query) (join : JoinConfig) : Query :=
  let joinClause := join.type.toStr ++ " JOIN " ++ join.table
  let joinClause :=
    if join.«alias» ≠ "" then joinClause ++ " AS " ++ join.«alias» else joinClause
  let joinClause := joinClause ++ " ON " ++ join.condition
  { query with joins := query.joins ++ [joinClause] }

/-- `Paginator.buildJoinClause`: appends one join clause per configured
join. -/
def buildJoinClause (query : Query) (config : PaginationConfig) : Query :=
  config.joins.foldl joinStep query

/-- The "Apply base conditions" loop of `buildWhereClause`. -/
def applyBaseConditions (query : Query) (config : PaginationConfig) : Query :=
  config.baseCondition.foldl
    (fun q fv => q.addWhere (fv.1 ++ " = ?") [fv.2]) query

/-- The "Apply search if provided" block of `buildWhereClause`: the
ILIKE conditions on all searchable fields, OR'd into one clause. -/
def applySearch (query : Query) (params : QueryParams)
    (config : PaginationConfig) : Query :=
  if params.search ≠ "" ∧ 0 < config.searchFields.length then
    let searchQuery := "%" ++ params.search ++ "%"
    let searchConditions := config.searchFields.map fun field => field ++ " ILIKE ?"
    let searchArgs := config.searchFields.map fun _ => Arg.str searchQuery
    query.addWhere (String.intercalate " OR " searchConditions) searchArgs
  else query

/-- The body of the "Apply filters" loop of `buildWhereClause`: an
equality condition on the mapped column when the key is allow-listed in
`config.FilterFields` and the value is non-nil, otherwise nothing. -/
def filterStep (config : PaginationConfig) (q : Query)
    (fv : String × Option Arg) : Query :=
  match config.filterFields.lookup fv.1, fv.2 with
  | some dbField, some v => q.addWhere (dbField ++ " = ?") [v]
  | _, _ => q

/-- The "Apply filters" loop of `buildWhereClause`. -/
def applyFilters (query : Query) (params : QueryParams)
    (config : PaginationConfig) : Query :=
  params.filters.foldl (filterStep config) query

/-- The body of the "Apply date range filters" loop of
`buildWhereClause`: `start-column >= start` and `end-column <= end`,
each only when that bound is non-nil, and only for keys present in
`config.DateFields`. -/
def dateStep (config : PaginationConfig) (q : Query)
    (fr : String × DateRange) : Query :=
  match config.dateFields.lookup fr.1 with
  | some dbField =>
    let q :=
      match fr.2.start with
      | some s => q.addWhere (dbField.start ++ " >= ?") [Arg.time s]
      | none => q
    match fr.2.«end» with
    | some e => q.addWhere (dbField.«end» ++ " <= ?") [Arg.time e]
    | none => q
  | none => q

/-- The "Apply date range filters if configured" block of
`buildWhereClause` (guarded on both maps being non-empty, as in the
source). -/
def applyDates (query : Query) (params : QueryParams)
    (config : PaginationConfig) : Query :=
  if 0 < config.dateFields.length ∧ 0 < params.dates.length then
    params.dates.foldl (dateStep config) query
  else query

/-- `Paginator.buildWhereClause`: base conditions, then the OR'd ILIKE
search, then allow-listed filters, then date-range bounds. -/
def buildWhereClause (query : Query) (params : QueryParams)
    (config : PaginationConfig) : Query :=
  applyDates
    (applyFilters (applySearch (applyBaseConditions query config) params config)
      params config)
    params config

/-- `Paginator.buildGroupByClause`: GROUP BY and HAVING from config. -/
def buildGroupByClause (query : Query) (config : PaginationConfig) : Query :=
  let query :=
    if 0 < config.groupBy.length then
      { query with groupByClause := some (String.intercalate ", " config.groupBy) }
    else query
  if 0 < config.having.length then
    { query with havingClause := some (String.intercalate " AND " config.having) }
  else query

/-- The "Set default values" block at the top of `Paginate`
(page/pageSize/sortBy defaults applied to the local copy of params). -/
def normParams (params : QueryParams) (config : PaginationConfig) : QueryParams :=
  let params := if params.page < 1 then { params with page := 1 } else params
  let params := if params.pageSize < 1 then { params with pageSize := 10 } else params
  if params.sortBy = "" then { params with sortBy := config.defaultSort } else params

/-- The DefaultOrder default from the same block (applied to the local
copy of config; the source never reads the field afterwards). -/
def normConfig (config : PaginationConfig) : PaginationConfig :=
  if config.defaultOrder = "" then { config with defaultOrder := "DESC" } else config

/-- The "Apply sorting" block of `Paginate`: if the (normalized) sort
field is non-empty it is validated against the `SortFields` allow-list,
falling back to `config.DefaultSort` when invalid, and an
`<field> <ASC|DESC>` order clause is installed, with the direction taken
from `params.SortDesc` alone. -/
def applySorting (query : Query) (params : QueryParams)
    (config : PaginationConfig) : Query :=
  if params.sortBy ≠ "" then
    let sortBy :=
      if params.sortBy ∈ config.sortFields then params.sortBy else config.defaultSort
    let sortOrder := if params.sortDesc then "DESC" else "ASC"
    { query with orderBy := some (sortBy ++ " " ++ sortOrder) }
  else query

/-- The "Apply relations if any" block of `Paginate`. -/
def applyRelations (query : Query) (config : PaginationConfig) : Query :=
  if 0 < config.relations.length then
    { query with preload := some (String.intercalate " " config.relations) }
  else query

/-- The "Apply pagination" block of `Paginate`:
`offset = (page - 1) * pageSize` and `limit = pageSize`. -/
def applyPagination (query : Query) (params : QueryParams) : Query :=
  { query with
      offset := some ((params.page - 1) * params.pageSize)
      limit := some params.pageSize }

/-- The query `Paginate` runs `Count` on: select, joins, where and
group/having clauses built from the normalized params and config
(source lines 239-246). -/
def countQueryOf (params0 : QueryParams) (config0 : PaginationConfig) : Query :=
  buildGroupByClause
    (buildWhereClause
      (buildJoinClause (buildSelectClause (normConfig config0)) (normConfig config0))
      (normParams params0 config0) (normConfig config0))
    (normConfig config0)

/-- The query `Paginate` runs `Find` on: the count query plus sorting
(with the `SortFields` allow-list fallback), preloads, offset and limit
(source lines 251-280). -/
def fetchQueryOf (params0 : QueryParams) (config0 : PaginationConfig) : Query :=
  applyPagination
    (applyRelations
      (applySorting (countQueryOf params0 config0) (normParams params0 config0)
        (normConfig config0))
      (normConfig config0))
    (normParams params0 config0)

/-- `PaginatedResponse`: data page plus pagination metadata.  `Row` is
the per-resource row shape (the source produces it by reflection over
`config.Model`). -/
structure PaginatedResponse (Row : Type) where
  data : List Row
  total : Int
  page : Int
  pageSize : Int
  totalPages : Int
deriving DecidableEq, Repr

/-- The backing store, as an oracle: `Count` and `Find` each either
fail with an error message or return a value. -/
structure Store (Row : Type) where
  count : Query → Except String Int
  find : Query → Except String (List Row)

/-- One store round-trip performed by `Paginate`. -/
inductive StoreCall where
  | countCall : Query → StoreCall
  | findCall : Query → StoreCall
deriving DecidableEq, Repr

/-- `int(math.Ceil(float64(total) / float64(pageSize)))`, modelled as
the exact real ceiling `⌈total / pageSize⌉ = -⌊-total / pageSize⌋`
(float64 arithmetic is exact at the magnitudes an SQL count can take
relative to a page size ≥ 1). -/
def ceilDiv (total pageSize : Int) : Int := -((-total) / pageSize)

/-- `Paginator.Paginate`: normalize params, build the clauses, run the
count query, attach sort/preload/offset/limit, run the fetch query,
and assemble the response; on a store error, wrap the cause and return
no response.  The first component records the store calls performed, in
order. -/
def Paginate {Row : Type} (store : Store Row) (params0 : QueryParams)
    (config0 : PaginationConfig) :
    List StoreCall × Except String (PaginatedResponse Row) :=
  match store.count (countQueryOf params0 config0) with
  | .error e =>
    ([StoreCall.countCall (countQueryOf params0 config0)],
      .error ("failed to get total count: " ++ e))
  | .ok total =>
    match store.find (fetchQueryOf params0 config0) with
    | .error e =>
      ([StoreCall.countCall (countQueryOf params0 config0),
          StoreCall.findCall (fetchQueryOf params0 config0)],
        .error ("failed to fetch data: " ++ e))
    | .ok result =>
      ([StoreCall.countCall (countQueryOf params0 config0),
          StoreCall.findCall (fetchQueryOf params0 config0)],
        .ok { data := result
              total := total
              page := (normParams params0 config0).page
              pageSize := (normParams params0 config0).pageSize
              totalPages := ceilDiv total (normParams params0 config0).pageSize })

/-! ### Generic fold lemmas -/

theorem foldl_proj {σ α β : Type _} (f : σ → α → σ) (g : σ → β)
    (h : ∀ b a, g (f b a) = g b) :
    ∀ (l : List α) (b : σ), g (List.foldl f b l) = g b := by
  intro l
  induction l with
  | nil => intro b; rfl
  | cons x xs ih => intro b; rw [List.foldl_cons, ih, h]

theorem foldl_middle_id {σ α : Type _} (f : σ → α → σ) (x : α)
    (hx : ∀ b, f b x = b) (l₁ l₂ : List α) (b : σ) :
    List.foldl f b (l₁ ++ x :: l₂) = List.foldl f b (l₁ ++ l₂) := by
  simp [List.foldl_append, hx]

/-! ### Projection lemmas: which `Query` fields each builder can touch -/

theorem joinStep_proj {β : Type _} (g : Query → β)
    (hg : ∀ q s, g { q with joins := q.joins ++ [s] } = g q)
    (q : Query) (j : JoinConfig) : g (joinStep q j) = g q := by
  unfold joinStep
  exact hg ..

theorem buildJoinClause_proj {β : Type _} (g : Query → β)
    (hg : ∀ q s, g { q with joins := q.joins ++ [s] } = g q)
    (q : Query) (c : PaginationConfig) : g (buildJoinClause q c) = g q :=
  foldl_proj _ g (fun b a => joinStep_proj g hg b a) _ _

theorem applyBaseConditions_proj {β : Type _} (g : Query → β)
    (hg : ∀ q cond args, g (Query.addWhere q cond args) = g q)
    (q : Query) (c : PaginationConfig) : g (applyBaseConditions q c) = g q :=
  foldl_proj _ g (fun _ _ => hg ..) _ _

theorem applySearch_proj {β : Type _} (g : Query → β)
    (hg : ∀ q cond args, g (Query.addWhere q cond args) = g q)
    (q : Query) (p : QueryParams) (c : PaginationConfig) :
    g (applySearch q p c) = g q := by
  unfold applySearch
  split
  · exact hg ..
  · rfl

theorem filterStep_proj {β : Type _} (g : Query → β)
    (hg : ∀ q cond args, g (Query.addWhere q cond args) = g q)
    (c : PaginationConfig) (q : Query) (fv : String × Option Arg) :
    g (filterStep c q fv) = g q := by
  unfold filterStep
  cases c.filterFields.lookup fv.1 <;> cases fv.2 <;> simp [hg]

theorem applyFilters_proj {β : Type _} (g : Query → β)
    (hg : ∀ q cond args, g (Query.addWhere q cond args) = g q)
    (q : Query) (p : QueryParams) (c : PaginationConfig) :
    g (applyFilters q p c) = g q :=
  foldl_proj _ g (fun b a => filterStep_proj g hg c b a) _ _

theorem dateStep_proj {β : Type _} (g : Query → β)
    (hg : ∀ q cond args, g (Query.addWhere q cond args) = g q)
    (c : PaginationConfig) (q : Query) (fr : String × DateRange) :
    g (dateStep c q fr) = g q := by
  unfold dateStep
  cases c.dateFields.lookup fr.1 with
  | none => rfl
  | some df => cases fr.2.start <;> cases fr.2.«end» <;> simp [hg]

theorem applyDates_proj {β : Type _} (g : Query → β)
    (hg : ∀ q cond args, g (Query.addWhere q cond args) = g q)
    (q : Query) (p : QueryParams) (c : PaginationConfig) :
    g (applyDates q p c) = g q := by
  unfold applyDates
  split
  · exact foldl_proj _ g (fun b a => dateStep_proj g hg c b a) _ _
  · rfl

theorem buildWhereClause_proj {β : Type _} (g : Query → β)
    (hg : ∀ q cond args, g (Query.addWhere q cond args) = g q)
    (q : Query) (p : QueryParams) (c : PaginationConfig) :
    g (buildWhereClause q p c) = g q := by
  unfold buildWhereClause
  rw [applyDates_proj g hg, applyFilters_proj g hg, applySearch_proj g hg,
    applyBaseConditions_proj g hg]

theorem buildGroupByClause_proj {β : Type _} (g : Query → β)
    (hg1 : ∀ q s, g { q with groupByClause := some s } = g q)
    (hg2 : ∀ q s, g { q with havingClause := some s } = g q)
    (q : Query) (c : PaginationConfig) : g (buildGroupByClause q c) = g q := by
  unfold buildGroupByClause
  split_ifs
  · exact (hg2 _ _).trans (hg1 _ _)
  · exact hg1 _ _
  · exact hg2 _ _
  · rfl

theorem fetch_count_proj {β : Type _} (g : Query → β)
    (h1 : ∀ q s, g { q with orderBy := some s } = g q)
    (h2 : ∀ q s, g { q with preload := some s } = g q)
    (h3 : ∀ q o l, g { q with offset := some o, limit := some l } = g q)
    (p : QueryParams) (c : PaginationConfig) :
    g (fetchQueryOf p c) = g (countQueryOf p c) := by
  unfold fetchQueryOf applyPagination
  rw [h3]
  unfold applyRelations
  split
  · rw [h2]
    unfold applySorting
    split
    · exact h1 ..
    · rfl
  · unfold applySorting
    split
    · exact h1 ..
    · rfl

theorem buildSelectClause_orderBy (c : PaginationConfig) :
    (buildSelectClause c).orderBy = none := by
  unfold buildSelectClause emptyQuery
  split_ifs <;> rfl

theorem buildSelectClause_offset (c : PaginationConfig) :
    (buildSelectClause c).offset = none := by
  unfold buildSelectClause emptyQuery
  split_ifs <;> rfl

theorem buildSelectClause_limit (c : PaginationConfig) :
    (buildSelectClause c).limit = none := by
  unfold buildSelectClause emptyQuery
  split_ifs <;> rfl

theorem countQueryOf_orderBy (p : QueryParams) (c : PaginationConfig) :
    (countQueryOf p c).orderBy = none := by
  unfold countQueryOf
  rw [buildGroupByClause_proj (fun q => q.orderBy) (fun _ _ => rfl) (fun _ _ => rfl),
    buildWhereClause_proj (fun q => q.orderBy) (fun _ _ _ => rfl),
    buildJoinClause_proj (fun q => q.orderBy) (fun _ _ => rfl),
    buildSelectClause_orderBy]

theorem countQueryOf_offset (p : QueryParams) (c : PaginationConfig) :
    (countQueryOf p c).offset = none := by
  unfold countQueryOf
  rw [buildGroupByClause_proj (fun q => q.offset) (fun _ _ => rfl) (fun _ _ => rfl),
    buildWhereClause_proj (fun q => q.offset) (fun _ _ _ => rfl),
    buildJoinClause_proj (fun q => q.offset) (fun _ _ => rfl),
    buildSelectClause_offset]

theorem countQueryOf_limit (p : QueryParams) (c : PaginationConfig) :
    (countQueryOf p c).limit = none := by
  unfold countQueryOf
  rw [buildGroupByClause_proj (fun q => q.limit) (fun _ _ => rfl) (fun _ _ => rfl),
    buildWhereClause_proj (fun q => q.limit) (fun _ _ _ => rfl),
    buildJoinClause_proj (fun q => q.limit) (fun _ _ => rfl),
    buildSelectClause_limit]

/-! ### Normalization lemmas -/

theorem normParams_page (p : QueryParams) (c : PaginationConfig) :
    (normParams p c).page = if p.page < 1 then 1 else p.page := by
  unfold normParams
  dsimp only
  split_ifs <;> rfl

theorem normParams_pageSize (p : QueryParams) (c : PaginationConfig) :
    (normParams p c).pageSize = if p.pageSize < 1 then 10 else p.pageSize := by
  unfold normParams
  dsimp only
  split_ifs <;> rfl

theorem normParams_sortBy (p : QueryParams) (c : PaginationConfig) :
    (normParams p c).sortBy = if p.sortBy = "" then c.defaultSort else p.sortBy := by
  unfold normParams
  dsimp only
  split_ifs <;> rfl

theorem normParams_search (p : QueryParams) (c : PaginationConfig) :
    (normParams p c).search = p.search := by
  unfold normParams
  dsimp only
  split_ifs <;> rfl

theorem normParams_filters (p : QueryParams) (c : PaginationConfig) :
    (normParams p c).filters = p.filters := by
  unfold normParams
  dsimp only
  split_ifs <;> rfl

theorem normParams_dates (p : QueryParams) (c : PaginationConfig) :
    (normParams p c).dates = p.dates := by
  unfold normParams
  dsimp only
  split_ifs <;> rfl

theorem normParams_sortDesc (p : QueryParams) (c : PaginationConfig) :
    (normParams p c).sortDesc = p.sortDesc := by
  unfold normParams
  dsimp only
  split_ifs <;> rfl

theorem normParams_pageSize_pos (p : QueryParams) (c : PaginationConfig) :
    1 ≤ (normParams p c).pageSize := by
  rw [normParams_pageSize]
  split_ifs <;> omega

/-- The query builders never read `defaultOrder`, so composing them
with `normConfig` is the same as running them on the raw config. -/
theorem buildSelectClause_normConfig (c : PaginationConfig) :
    buildSelectClause (normConfig c) = buildSelectClause c := by
  unfold normConfig
  split <;> rfl

theorem buildJoinClause_normConfig (q : Query) (c : PaginationConfig) :
    buildJoinClause q (normConfig c) = buildJoinClause q c := by
  unfold normConfig
  split <;> rfl

theorem buildWhereClause_normConfig (q : Query) (p : QueryParams)
    (c : PaginationConfig) :
    buildWhereClause q p (normConfig c) = buildWhereClause q p c := by
  unfold normConfig
  split <;> rfl

theorem buildGroupByClause_normConfig (q : Query) (c : PaginationConfig) :
    buildGroupByClause q (normConfig c) = buildGroupByClause q c := by
  unfold normConfig
  split <;> rfl

theorem applySorting_normConfig (q : Query) (p : QueryParams) (c : PaginationConfig) :
    applySorting q p (normConfig c) = applySorting q p c := by
  unfold normConfig
  split <;> rfl

theorem applyRelations_normConfig (q : Query) (c : PaginationConfig) :
    applyRelations q (normConfig c) = applyRelations q c := by
  unfold normConfig
  split <;> rfl

/-! ### Congruence lemmas -/

theorem applySearch_congr (q : Query) (p p' : QueryParams) (c : PaginationConfig)
    (h : p.search = p'.search) : applySearch q p c = applySearch q p' c := by
  unfold applySearch
  rw [h]

theorem applyFilters_congr (q : Query) (p p' : QueryParams) (c : PaginationConfig)
    (h : p.filters = p'.filters) : applyFilters q p c = applyFilters q p' c := by
  unfold applyFilters
  rw [h]

theorem applyDates_congr (q : Query) (p p' : QueryParams) (c : PaginationConfig)
    (h : p.dates = p'.dates) : applyDates q p c = applyDates q p' c := by
  unfold applyDates
  rw [h]

theorem buildWhereClause_congr (q : Query) (p p' : QueryParams) (c : PaginationConfig)
    (hs : p.search = p'.search) (hf : p.filters = p'.filters)
    (hd : p.dates = p'.dates) :
    buildWhereClause q p c = buildWhereClause q p' c := by
  unfold buildWhereClause
  rw [applySearch_congr _ _ _ _ hs, applyFilters_congr _ _ _ _ hf,
    applyDates_congr _ _ _ _ hd]

/-- `Paginate` is determined by the two queries it executes and by the
normalized page and page size. -/
theorem paginate_congr {Row : Type} (store : Store Row) {p p' : QueryParams}
    {c c' : PaginationConfig}
    (hcount : countQueryOf p c = countQueryOf p' c')
    (hfetch : fetchQueryOf p c = fetchQueryOf p' c')
    (hpage : (normParams p c).page = (normParams p' c').page)
    (hsize : (normParams p c).pageSize = (normParams p' c').pageSize) :
    Paginate store p c = Paginate store p' c' := by
  unfold Paginate
  rw [hcount, hfetch, hpage, hsize]

theorem normConfig_filterFields (c : PaginationConfig) :
    (normConfig c).filterFields = c.filterFields := by
  unfold normConfig
  split <;> rfl

theorem normConfig_sortFields (c : PaginationConfig) :
    (normConfig c).sortFields = c.sortFields := by
  unfold normConfig
  split <;> rfl

theorem normConfig_defaultSort (c : PaginationConfig) :
    (normConfig c).defaultSort = c.defaultSort := by
  unfold normConfig
  split <;> rfl

theorem applySorting_congr (q : Query) (p p' : QueryParams) (c : PaginationConfig)
    (h1 : p.sortBy = p'.sortBy) (h2 : p.sortDesc = p'.sortDesc) :
    applySorting q p c = applySorting q p' c := by
  unfold applySorting
  rw [h1, h2]

theorem applyPagination_congr (q : Query) (p p' : QueryParams)
    (h1 : p.page = p'.page) (h2 : p.pageSize = p'.pageSize) :
    applyPagination q p = applyPagination q p' := by
  unfold applyPagination
  rw [h1, h2]

/-! ### Where does the ORDER BY clause come from -/

theorem applyPagination_orderBy (q : Query) (p : QueryParams) :
    (applyPagination q p).orderBy = q.orderBy := rfl

theorem applyRelations_orderBy (q : Query) (c : PaginationConfig) :
    (applyRelations q c).orderBy = q.orderBy := by
  unfold applyRelations
  split <;> rfl

theorem applySorting_orderBy (q : Query) (p : QueryParams) (c : PaginationConfig) :
    (applySorting q p c).orderBy =
      if p.sortBy = "" then q.orderBy
      else some ((if p.sortBy ∈ c.sortFields then p.sortBy else c.defaultSort) ++
        " " ++ (if p.sortDesc then "DESC" else "ASC")) := by
  unfold applySorting
  by_cases h : p.sortBy = "" <;> simp [h]

/-- The ORDER BY clause of the fetch query, in terms of the normalized
sort field: nothing when it is empty, otherwise the allow-list-validated
field with the direction taken from `params.SortDesc`. -/
theorem fetchQueryOf_orderBy (p : QueryParams) (c : PaginationConfig) :
    (fetchQueryOf p c).orderBy =
      if (normParams p c).sortBy = "" then none
      else some ((if (normParams p c).sortBy ∈ c.sortFields then (normParams p c).sortBy
          else c.defaultSort) ++ " " ++ (if p.sortDesc then "DESC" else "ASC")) := by
  unfold fetchQueryOf
  rw [applyPagination_orderBy, applyRelations_orderBy, applySorting_orderBy,
    countQueryOf_orderBy, normParams_sortDesc, normConfig_sortFields,
    normConfig_defaultSort]

/-! ### `DefaultOrder` is never read after its normalization -/

theorem countQueryOf_defaultOrder (p : QueryParams) (c : PaginationConfig)
    (o : String) :
    countQueryOf p { c with defaultOrder := o } = countQueryOf p c := by
  unfold countQueryOf
  rw [buildSelectClause_normConfig, buildSelectClause_normConfig,
    buildJoinClause_normConfig, buildJoinClause_normConfig,
    buildWhereClause_normConfig, buildWhereClause_normConfig,
    buildGroupByClause_normConfig, buildGroupByClause_normConfig]
  rfl

theorem fetchQueryOf_defaultOrder (p : QueryParams) (c : PaginationConfig)
    (o : String) :
    fetchQueryOf p { c with defaultOrder := o } = fetchQueryOf p c := by
  unfold fetchQueryOf
  rw [applySorting_normConfig, applySorting_normConfig,
    applyRelations_normConfig, applyRelations_normConfig,
    countQueryOf_defaultOrder]
  rfl

/-! ### Dropping an ineffective filter entry -/

/-- A filter entry on which `filterStep` is the identity can be removed
from anywhere in the filter map without changing anything `Paginate`
does. -/
theorem paginate_filters_middle_id {Row : Type} (store : Store Row)
    (p : QueryParams) (c : PaginationConfig) (k : String) (v : Option Arg)
    (l₁ l₂ : List (String × Option Arg))
    (hp : p.filters = l₁ ++ (k, v) :: l₂)
    (hstep : ∀ b, filterStep (normConfig c) b (k, v) = b) :
    Paginate store p c = Paginate store { p with filters := l₁ ++ l₂ } c := by
  have hsearch : (normParams p c).search =
      (normParams { p with filters := l₁ ++ l₂ } c).search := by
    simp only [normParams_search]
  have hdates : (normParams p c).dates =
      (normParams { p with filters := l₁ ++ l₂ } c).dates := by
    simp only [normParams_dates]
  have hsortBy : (normParams p c).sortBy =
      (normParams { p with filters := l₁ ++ l₂ } c).sortBy := by
    simp only [normParams_sortBy]
  have hsortDesc : (normParams p c).sortDesc =
      (normParams { p with filters := l₁ ++ l₂ } c).sortDesc := by
    simp only [normParams_sortDesc]
  have hpage : (normParams p c).page =
      (normParams { p with filters := l₁ ++ l₂ } c).page := by
    simp only [normParams_page]
  have hsize : (normParams p c).pageSize =
      (normParams { p with filters := l₁ ++ l₂ } c).pageSize := by
    simp only [normParams_pageSize]
  have hfil : ∀ Y, applyFilters Y (normParams p c) (normConfig c) =
      applyFilters Y (normParams { p with filters := l₁ ++ l₂ } c) (normConfig c) := by
    intro Y
    unfold applyFilters
    simp only [normParams_filters]
    rw [hp]
    exact foldl_middle_id _ _ hstep l₁ l₂ Y
  have hw : ∀ q, buildWhereClause q (normParams p c) (normConfig c) =
      buildWhereClause q (normParams { p with filters := l₁ ++ l₂ } c) (normConfig c) := by
    intro q
    unfold buildWhereClause
    rw [applySearch_congr _ _ _ _ hsearch, hfil, applyDates_congr _ _ _ _ hdates]
  have hcount : countQueryOf p c = countQueryOf { p with filters := l₁ ++ l₂ } c := by
    unfold countQueryOf
    rw [hw]
  refine paginate_congr store hcount ?_ hpage hsize
  unfold fetchQueryOf
  rw [hcount, applySorting_congr _ _ _ _ hsortBy hsortDesc,
    applyPagination_congr _ _ _ hpage hsize]

/-! ### The conditions contributed by the date-range map -/

/-- The conditions one caller date-range entry contributes, exactly as
the specification describes them: nothing unless the entry's key is in
`config.DateFields`; otherwise `start-column >= start` when the start
bound is non-nil and `end-column <= end` when the end bound is non-nil,
each bound independently of the other. -/
def specDateConds (config : PaginationConfig) (fr : String × DateRange) :
    List (String × List Arg) :=
  match config.dateFields.lookup fr.1 with
  | none => []
  | some dbField =>
    (match fr.2.start with
     | some s => [(dbField.start ++ " >= ?", [Arg.time s])]
     | none => []) ++
    (match fr.2.«end» with
     | some e => [(dbField.«end» ++ " <= ?", [Arg.time e])]
     | none => [])

theorem dateStep_whereClauses (c : PaginationConfig) (q : Query)
    (fr : String × DateRange) :
    (dateStep c q fr).whereClauses = q.whereClauses ++ specDateConds c fr := by
  unfold dateStep specDateConds
  cases c.dateFields.lookup fr.1 with
  | none => simp
  | some df => cases fr.2.start <;> cases fr.2.«end» <;> simp [Query.addWhere]

theorem foldl_dateStep_whereClauses (c : PaginationConfig)
    (l : List (String × DateRange)) :
    ∀ q : Query, (List.foldl (dateStep c) q l).whereClauses =
      q.whereClauses ++ l.flatMap (specDateConds c) := by
  induction l with
  | nil => intro q; simp
  | cons fr l ih =>
    intro q
    rw [List.foldl_cons, ih, dateStep_whereClauses, List.flatMap_cons,
      List.append_assoc]

theorem applyDates_whereClauses (q : Query) (p : QueryParams)
    (c : PaginationConfig) :
    (applyDates q p c).whereClauses =
      q.whereClauses ++ p.dates.flatMap (specDateConds c) := by
  unfold applyDates
  split
  · exact foldl_dateStep_whereClauses c p.dates q
  · rename_i h
    rcases Nat.eq_zero_or_pos c.dateFields.length with hdf | hdf
    · have hnilc : c.dateFields = [] := List.length_eq_zero.mp hdf
      have hnil : ∀ fr, specDateConds c fr = [] := by
        intro fr
        simp [specDateConds, hnilc]
      simp [hnil]
    · have : p.dates.length = 0 := by
        by_contra hne
        exact h ⟨hdf, Nat.pos_of_ne_zero hne⟩
      have hnild : p.dates = [] := List.length_eq_zero.mp this
      simp [hnild]

/-! ### Inversion of a successful `Paginate` and the page arithmetic -/

theorem paginate_ok_inv {Row : Type} {store : Store Row} {p : QueryParams}
    {c : PaginationConfig} {resp : PaginatedResponse Row}
    (hok : (Paginate store p c).2 = Except.ok resp) :
    ∃ total rows, store.count (countQueryOf p c) = Except.ok total ∧
      store.find (fetchQueryOf p c) = Except.ok rows ∧
      resp = { data := rows
               total := total
               page := (normParams p c).page
               pageSize := (normParams p c).pageSize
               totalPages := ceilDiv total (normParams p c).pageSize } := by
  unfold Paginate at hok
  cases h1 : store.count (countQueryOf p c) with
  | error e => rw [h1] at hok; simp at hok
  | ok total =>
    rw [h1] at hok
    cases h2 : store.find (fetchQueryOf p c) with
    | error e => rw [h2] at hok; simp at hok
    | ok rows =>
      rw [h2] at hok
      exact ⟨total, rows, rfl, rfl, by simpa using hok.symm⟩

theorem ceilDiv_eq_ceil (t ps : Int) (hps : 0 < ps) :
    ceilDiv t ps = ⌈(t : ℚ) / (ps : ℚ)⌉ := by
  have hQ : (0 : ℚ) < (ps : ℚ) := by exact_mod_cast hps
  symm
  rw [Int.ceil_eq_iff]
  constructor
  · rw [lt_div_iff₀ hQ]
    have key : (ceilDiv t ps - 1) * ps < t := by
      unfold ceilDiv
      nlinarith [Int.ediv_add_emod (-t) ps, Int.emod_lt_of_pos (-t) hps]
    exact_mod_cast key
  · rw [div_le_iff₀ hQ]
    have key : t ≤ ceilDiv t ps * ps := by
      unfold ceilDiv
      nlinarith [Int.ediv_add_emod (-t) ps, Int.emod_nonneg (-t) (ne_of_gt hps)]
    exact_mod_cast key

theorem ceilDiv_zero_left (ps : Int) : ceilDiv 0 ps = 0 := by
  simp [ceilDiv]

/-! ### Concrete fixtures used by witnesses and counterexamples -/

/-- An otherwise-empty per-resource configuration over a `users` table. -/
def emptyConfig : PaginationConfig :=
  { model := "users", baseCondition := [], searchFields := [], filterFields := [],
    dateFields := [], sortFields := [], defaultSort := "", defaultOrder := "",
    relations := [], joins := [], selectFields := [], groupBy := [], having := [],
    distinct := false, tableAlias := "" }

/-- Plain first-page parameters. -/
def baseParams : QueryParams :=
  { page := 1, pageSize := 10, search := "", filters := [], sortBy := "",
    sortDesc := false, dates := [] }

/-- A store that reports 0 matching rows and returns an empty page. -/
def okStore : Store Unit :=
  { count := fun _ => .ok 0, find := fun _ => .ok [] }

/-- A store that reports 25 matching rows. -/
def store25 : Store Unit :=
  { count := fun _ => .ok 25, find := fun _ => .ok [] }

/-- A store whose count query fails. -/
def badStore : Store Unit :=
  { count := fun _ => .error "boom", find := fun _ => .ok [] }

/-- Parameters requesting a page size above the documented cap. -/
def p150 : QueryParams := { baseParams with pageSize := 150 }

/-- A config allow-listing the `role` filter. -/
def filterConfig : PaginationConfig :=
  { emptyConfig with filterFields := [("role", "role")] }

/-- Parameters carrying a filter key that is not allow-listed. -/
def pUnknownFilter : QueryParams :=
  { baseParams with filters := [("hack", some (Arg.str "x"))] }

/-- Parameters carrying an allow-listed filter key with a nil value. -/
def pNilFilter : QueryParams := { baseParams with filters := [("role", none)] }

/-- A config that can sort on `name`, defaults to sorting on `name`,
and leaves `DefaultOrder` empty. -/
def sortConfig : PaginationConfig :=
  { emptyConfig with
      sortFields := ["name"]
      defaultSort := "name"
      defaultOrder := "" }

/-- Parameters requesting the `name` sort ascending (`sortDesc` unset). -/
def pSortName : QueryParams := { baseParams with sortBy := "name" }

/-- A config that can sort on `name` but has an empty `DefaultSort`. -/
def sortOnlyConfig : PaginationConfig := { emptyConfig with sortFields := ["name"] }

/-- Parameters requesting a sort field outside the allow-list. -/
def pBogusSort : QueryParams := { baseParams with sortBy := "bogus" }

/-- A config with an allow-listed sort field and a non-empty default. -/
def sortFallbackConfig : PaginationConfig :=
  { emptyConfig with
      sortFields := ["name"]
      defaultSort := "created_at" }

/-- Parameters with the descending flag set but no sort field. -/
def pDescFlag : QueryParams := { baseParams with sortDesc := true }

/-- A config with no default sort but an explicit `DefaultOrder`. -/
def cOrderAsc : PaginationConfig := { emptyConfig with defaultOrder := "ASC" }

/-! ### The claims -/

/-- C1, counterexample: with `pageSize = 150` the fetch limit and the
reported page size are 150, not the claimed clamp value 100 — `Paginate`
never caps the page size at 100. -/
theorem c1_counterexample :
    (fetchQueryOf p150 emptyConfig).limit = some 150 ∧
    (fetchQueryOf p150 emptyConfig).limit ≠ some 100 ∧
    (Paginate okStore p150 emptyConfig).2 =
      Except.ok { data := [], total := 0, page := 1, pageSize := 150, totalPages := 0 } :=
  ⟨rfl, by decide, rfl⟩

/-- C1 (amended): `Paginate` defaults `pageSize < 1` to 10 but applies
no upper clamp: the effective page size is the caller's `pageSize`
whenever it is ≥ 1 (even above 100), and it is both used as the fetch
limit and reported in the response.  (The 1..100 range is enforced only
by the HTTP binding's `max=100` validation, which rejects rather than
clamps.) -/
theorem c1_pageSize_effective {Row : Type} (store : Store Row) (p : QueryParams)
    (c : PaginationConfig) (resp : PaginatedResponse Row)
    (hok : (Paginate store p c).2 = Except.ok resp) :
    resp.pageSize = (if p.pageSize < 1 then 10 else p.pageSize) ∧
    (fetchQueryOf p c).limit = some (if p.pageSize < 1 then 10 else p.pageSize) := by
  obtain ⟨total, rows, h1, h2, h3⟩ := paginate_ok_inv hok
  subst h3
  constructor
  · simp only [normParams_pageSize]
  · have hl : (fetchQueryOf p c).limit = some ((normParams p c).pageSize) := rfl
    rw [hl, normParams_pageSize]

/-- Witness for C1: at `pageSize = 150` the effective page size is 150. -/
theorem c1_pageSize_effective_witness :
    ({ data := [], total := 0, page := 1, pageSize := 150, totalPages := 0 }
        : PaginatedResponse Unit).pageSize =
      (if p150.pageSize < 1 then 10 else p150.pageSize) ∧
    (fetchQueryOf p150 emptyConfig).limit =
      some (if p150.pageSize < 1 then 10 else p150.pageSize) :=
  c1_pageSize_effective okStore p150 emptyConfig
    { data := [], total := 0, page := 1, pageSize := 150, totalPages := 0 } rfl

/-- C2: a filter key not present in `config.FilterFields` contributes no
condition: `Paginate` behaves exactly as if the entry were omitted from
the filter map, and no error is raised. -/
theorem c2_unknown_filter_key_dropped {Row : Type} (store : Store Row)
    (p : QueryParams) (c : PaginationConfig) (k : String) (v : Option Arg)
    (l₁ l₂ : List (String × Option Arg))
    (hp : p.filters = l₁ ++ (k, v) :: l₂)
    (hk : c.filterFields.lookup k = none) :
    Paginate store p c = Paginate store { p with filters := l₁ ++ l₂ } c := by
  refine paginate_filters_middle_id store p c k v l₁ l₂ hp ?_
  intro b
  have hk' : (normConfig c).filterFields.lookup k = none := by
    rw [normConfig_filterFields]; exact hk
  unfold filterStep
  cases v <;> simp [hk']

/-- Witness for C2: filtering on the unknown key `hack` equals the call
without it. -/
theorem c2_unknown_filter_key_dropped_witness :
    Paginate okStore pUnknownFilter filterConfig =
      Paginate okStore { pUnknownFilter with filters := [] ++ [] } filterConfig :=
  c2_unknown_filter_key_dropped okStore pUnknownFilter filterConfig "hack"
    (some (Arg.str "x")) [] [] rfl rfl

/-- C3: the count query carries exactly the same base/search/filter/date
conditions, joins, select/distinct shape and group/having clauses as the
fetch query, while ORDER BY, OFFSET (`(page-1)*pageSize`) and LIMIT are
installed only on the fetch; `Paginate` executes exactly those two
queries, count first. -/
theorem c3_count_without_order_offset_limit {Row : Type} (store : Store Row)
    (p : QueryParams) (c : PaginationConfig) :
    ((Paginate store p c).1 = [StoreCall.countCall (countQueryOf p c)] ∨
      (Paginate store p c).1 = [StoreCall.countCall (countQueryOf p c),
        StoreCall.findCall (fetchQueryOf p c)]) ∧
    (countQueryOf p c).orderBy = none ∧
    (countQueryOf p c).offset = none ∧
    (countQueryOf p c).limit = none ∧
    (fetchQueryOf p c).whereClauses = (countQueryOf p c).whereClauses ∧
    (fetchQueryOf p c).joins = (countQueryOf p c).joins ∧
    (fetchQueryOf p c).groupByClause = (countQueryOf p c).groupByClause ∧
    (fetchQueryOf p c).havingClause = (countQueryOf p c).havingClause ∧
    (fetchQueryOf p c).table = (countQueryOf p c).table ∧
    (fetchQueryOf p c).selectClause = (countQueryOf p c).selectClause ∧
    (fetchQueryOf p c).distinct = (countQueryOf p c).distinct ∧
    (fetchQueryOf p c).offset =
      some (((normParams p c).page - 1) * (normParams p c).pageSize) ∧
    (fetchQueryOf p c).limit = some ((normParams p c).pageSize) := by
  refine ⟨?_, countQueryOf_orderBy p c, countQueryOf_offset p c, countQueryOf_limit p c,
    fetch_count_proj (fun q => q.whereClauses) (fun _ _ => rfl) (fun _ _ => rfl)
      (fun _ _ _ => rfl) p c,
    fetch_count_proj (fun q => q.joins) (fun _ _ => rfl) (fun _ _ => rfl)
      (fun _ _ _ => rfl) p c,
    fetch_count_proj (fun q => q.groupByClause) (fun _ _ => rfl) (fun _ _ => rfl)
      (fun _ _ _ => rfl) p c,
    fetch_count_proj (fun q => q.havingClause) (fun _ _ => rfl) (fun _ _ => rfl)
      (fun _ _ _ => rfl) p c,
    fetch_count_proj (fun q => q.table) (fun _ _ => rfl) (fun _ _ => rfl)
      (fun _ _ _ => rfl) p c,
    fetch_count_proj (fun q => q.selectClause) (fun _ _ => rfl) (fun _ _ => rfl)
      (fun _ _ _ => rfl) p c,
    fetch_count_proj (fun q => q.distinct) (fun _ _ => rfl) (fun _ _ => rfl)
      (fun _ _ _ => rfl) p c,
    rfl, rfl⟩
  unfold Paginate
  cases store.count (countQueryOf p c) with
  | error e => left; rfl
  | ok total =>
    cases store.find (fetchQueryOf p c) with
    | error e => right; rfl
    | ok rows => right; rfl

/-- C4, counterexample: with `DefaultOrder = ""` and a valid sort field,
the fetch is ordered `name ASC`, not descending as claimed. -/
theorem c4_counterexample :
    sortConfig.defaultOrder = "" ∧
    pSortName.sortDesc = false ∧
    (fetchQueryOf pSortName sortConfig).orderBy = some "name ASC" ∧
    (fetchQueryOf pSortName sortConfig).orderBy ≠ some "name DESC" :=
  ⟨rfl, rfl, rfl, by decide⟩

/-- C4 (amended): `config.DefaultOrder` is normalized to `"DESC"` when
empty but never read afterwards — it has no effect on `Paginate` at all;
for every params and config the fetch's ORDER BY direction is driven
solely by `params.SortDesc` — ascending when the flag is false,
descending when true — whatever the (normalized) sort field is and
whatever `DefaultOrder` says. -/
theorem c4_defaultOrder_ignored {Row : Type} (store : Store Row) (p : QueryParams)
    (c : PaginationConfig) (o₁ o₂ : String) :
    Paginate store p { c with defaultOrder := o₁ } =
      Paginate store p { c with defaultOrder := o₂ } ∧
    (fetchQueryOf p c).orderBy =
      (if (normParams p c).sortBy = "" then none
       else some ((if (normParams p c).sortBy ∈ c.sortFields then (normParams p c).sortBy
           else c.defaultSort) ++ " " ++ (if p.sortDesc then "DESC" else "ASC"))) := by
  constructor
  · refine paginate_congr store ?_ ?_ ?_ ?_
    · exact (countQueryOf_defaultOrder p c o₁).trans
        (countQueryOf_defaultOrder p c o₂).symm
    · exact (fetchQueryOf_defaultOrder p c o₁).trans
        (fetchQueryOf_defaultOrder p c o₂).symm
    · rfl
    · rfl
  · exact fetchQueryOf_orderBy p c

/-- Witness for C4: changing `DefaultOrder` between `""` and `"DESC"`
does not change the call, and at the concrete inputs the order clause is
`name ASC` when `sortDesc` is false and `name DESC` when it is true. -/
theorem c4_defaultOrder_ignored_witness :
    (Paginate okStore pSortName { sortConfig with defaultOrder := "" } =
      Paginate okStore pSortName { sortConfig with defaultOrder := "DESC" }) ∧
    (fetchQueryOf pSortName sortConfig).orderBy = some "name ASC" ∧
    (fetchQueryOf { pSortName with sortDesc := true } sortConfig).orderBy =
      some "name DESC" :=
  ⟨(c4_defaultOrder_ignored okStore pSortName sortConfig "" "DESC").1,
   (c4_defaultOrder_ignored okStore pSortName sortConfig "" "DESC").2,
   (c4_defaultOrder_ignored okStore { pSortName with sortDesc := true }
       sortConfig "" "DESC").2⟩

/-- C5, counterexample: when `DefaultSort` is empty, an invalid sort
field yields the malformed order clause `" ASC"`, while explicitly
requesting the (empty) default sort field leaves the fetch unordered —
the two orderings differ. -/
theorem c5_counterexample :
    pBogusSort.sortBy ∉ sortOnlyConfig.sortFields ∧
    sortOnlyConfig.defaultSort = "" ∧
    (fetchQueryOf pBogusSort sortOnlyConfig).orderBy = some " ASC" ∧
    (fetchQueryOf { pBogusSort with sortBy := sortOnlyConfig.defaultSort }
        sortOnlyConfig).orderBy = none ∧
    (fetchQueryOf pBogusSort sortOnlyConfig).orderBy ≠
      (fetchQueryOf { pBogusSort with sortBy := sortOnlyConfig.defaultSort }
          sortOnlyConfig).orderBy :=
  ⟨by decide, rfl, rfl, rfl, by decide⟩

/-- C5 (amended): provided `config.DefaultSort` is non-empty, a
non-empty sort field outside `config.SortFields` does not change
anything: `Paginate` behaves exactly as the call that explicitly
requests the default sort field (same ordering, no error). -/
theorem c5_invalid_sort_falls_back {Row : Type} (store : Store Row) (p : QueryParams)
    (c : PaginationConfig) (h1 : p.sortBy ≠ "") (h2 : p.sortBy ∉ c.sortFields)
    (h3 : c.defaultSort ≠ "") :
    Paginate store p c = Paginate store { p with sortBy := c.defaultSort } c := by
  have hsearch : (normParams p c).search =
      (normParams { p with sortBy := c.defaultSort } c).search := by
    simp only [normParams_search]
  have hfilters : (normParams p c).filters =
      (normParams { p with sortBy := c.defaultSort } c).filters := by
    simp only [normParams_filters]
  have hdates : (normParams p c).dates =
      (normParams { p with sortBy := c.defaultSort } c).dates := by
    simp only [normParams_dates]
  have hpage : (normParams p c).page =
      (normParams { p with sortBy := c.defaultSort } c).page := by
    simp only [normParams_page]
  have hsize : (normParams p c).pageSize =
      (normParams { p with sortBy := c.defaultSort } c).pageSize := by
    simp only [normParams_pageSize]
  have hA : (normParams p c).sortBy = p.sortBy := by
    rw [normParams_sortBy, if_neg h1]
  have hB : (normParams { p with sortBy := c.defaultSort } c).sortBy = c.defaultSort := by
    simp only [normParams_sortBy]
    exact ite_self _
  have hcount : countQueryOf p c = countQueryOf { p with sortBy := c.defaultSort } c := by
    unfold countQueryOf
    rw [buildWhereClause_congr _ _ _ _ hsearch hfilters hdates]
  have hsort : applySorting (countQueryOf { p with sortBy := c.defaultSort } c)
        (normParams p c) (normConfig c) =
      applySorting (countQueryOf { p with sortBy := c.defaultSort } c)
        (normParams { p with sortBy := c.defaultSort } c) (normConfig c) := by
    unfold applySorting
    rw [hA, hB]
    simp only [normParams_sortDesc, normConfig_sortFields, normConfig_defaultSort]
    simp [h1, h2, h3]
  refine paginate_congr store hcount ?_ hpage hsize
  unfold fetchQueryOf
  rw [hcount, hsort, applyPagination_congr _ _ _ hpage hsize]

/-- Witness for C5: sorting by the unknown field `bogus` equals
explicitly sorting by the default `created_at`. -/
theorem c5_invalid_sort_falls_back_witness :
    Paginate okStore pBogusSort sortFallbackConfig =
      Paginate okStore { pBogusSort with sortBy := sortFallbackConfig.defaultSort }
        sortFallbackConfig :=
  c5_invalid_sort_falls_back okStore pBogusSort sortFallbackConfig
    (by decide) (by decide) (by decide)

/-- C6: the date-range map contributes exactly the conditions of
`specDateConds`: for a key present in `config.DateFields`,
`start-column >= start` when the start bound is non-nil and
`end-column <= end` when the end bound is non-nil (each bound
independently); a key absent from `config.DateFields` contributes
nothing, and no entry ever raises an error. -/
theorem c6_date_range_conditions (q : Query) (p : QueryParams)
    (c : PaginationConfig) :
    (buildWhereClause q p c).whereClauses =
      (buildWhereClause q { p with dates := [] } c).whereClauses ++
        p.dates.flatMap (specDateConds c) := by
  unfold buildWhereClause
  rw [applyDates_whereClauses, applyDates_whereClauses,
    applySearch_congr _ p { p with dates := [] } _ rfl,
    applyFilters_congr _ p { p with dates := [] } _ rfl]
  simp

/-- C7: on success, `TotalPages` is the ceiling of the total row count
divided by the effective page size, and is 0 when the total is 0. -/
theorem c7_totalPages_ceil {Row : Type} (store : Store Row) (p : QueryParams)
    (c : PaginationConfig) (resp : PaginatedResponse Row)
    (hok : (Paginate store p c).2 = Except.ok resp) :
    resp.totalPages = ⌈(resp.total : ℚ) / (resp.pageSize : ℚ)⌉ ∧
    (resp.total = 0 → resp.totalPages = 0) := by
  obtain ⟨total, rows, h1, h2, h3⟩ := paginate_ok_inv hok
  subst h3
  have hps : 0 < (normParams p c).pageSize := by
    have := normParams_pageSize_pos p c
    omega
  constructor
  · exact ceilDiv_eq_ceil total _ hps
  · intro h0
    have h0' : total = 0 := h0
    show ceilDiv total (normParams p c).pageSize = 0
    rw [h0']
    exact ceilDiv_zero_left _


/-- Witness for C7: 25 rows at page size 10 give 3 pages. -/
theorem c7_totalPages_ceil_witness :
    (Paginate store25 baseParams emptyConfig).2 = Except.ok
      ({ data := [], total := 25, page := 1, pageSize := 10, totalPages := 3 }
        : PaginatedResponse Unit) ∧
    (({ data := [], total := 25, page := 1, pageSize := 10, totalPages := 3 }
          : PaginatedResponse Unit).totalPages =
        ⌈(({ data := [], total := 25, page := 1, pageSize := 10, totalPages := 3 }
            : PaginatedResponse Unit).total : ℚ) /
          (({ data := [], total := 25, page := 1, pageSize := 10, totalPages := 3 }
            : PaginatedResponse Unit).pageSize : ℚ)⌉ ∧
      (({ data := [], total := 25, page := 1, pageSize := 10, totalPages := 3 }
          : PaginatedResponse Unit).total = 0 →
        ({ data := [], total := 25, page := 1, pageSize := 10, totalPages := 3 }
          : PaginatedResponse Unit).totalPages = 0)) :=
  ⟨rfl, c7_totalPages_ceil store25 baseParams emptyConfig
    { data := [], total := 25, page := 1, pageSize := 10, totalPages := 3 } rfl⟩

/-- C8: a count-query failure makes `Paginate` return an error wrapping
the cause after exactly one store call, and a fetch-query failure makes
it return an error wrapping the cause after exactly the two store calls
— in both cases no response is produced and nothing is retried. -/
theorem c8_store_errors_propagate {Row : Type} (store : Store Row) (p : QueryParams)
    (c : PaginationConfig) (e : String) :
    (store.count (countQueryOf p c) = Except.error e →
      Paginate store p c = ([StoreCall.countCall (countQueryOf p c)],
        Except.error ("failed to get total count: " ++ e))) ∧
    (∀ total, store.count (countQueryOf p c) = Except.ok total →
      store.find (fetchQueryOf p c) = Except.error e →
      Paginate store p c = ([StoreCall.countCall (countQueryOf p c),
          StoreCall.findCall (fetchQueryOf p c)],
        Except.error ("failed to fetch data: " ++ e))) := by
  constructor
  · intro h
    unfold Paginate
    rw [h]
  · intro total hcnt hfind
    unfold Paginate
    rw [hcnt, hfind]

/-- Witness for C8: a failing count produces exactly one wrapped error
and one store call. -/
theorem c8_store_errors_propagate_witness :
    Paginate badStore baseParams emptyConfig =
      ([StoreCall.countCall (countQueryOf baseParams emptyConfig)],
        Except.error ("failed to get total count: " ++ "boom")) :=
  (c8_store_errors_propagate badStore baseParams emptyConfig "boom").1 rfl

/-- C9: a filter entry whose key is allow-listed but whose value is nil
contributes no condition: `Paginate` behaves exactly as if the entry
were omitted from the filter map. -/
theorem c9_nil_filter_value_dropped {Row : Type} (store : Store Row)
    (p : QueryParams) (c : PaginationConfig) (k dbField : String)
    (l₁ l₂ : List (String × Option Arg))
    (hp : p.filters = l₁ ++ (k, none) :: l₂)
    (_hk : c.filterFields.lookup k = some dbField) :
    Paginate store p c = Paginate store { p with filters := l₁ ++ l₂ } c := by
  refine paginate_filters_middle_id store p c k none l₁ l₂ hp ?_
  intro b
  unfold filterStep
  dsimp only
  cases (normConfig c).filterFields.lookup k <;> rfl

/-- Witness for C9: the allow-listed key `role` with a nil value equals
the call without it. -/
theorem c9_nil_filter_value_dropped_witness :
    Paginate okStore pNilFilter filterConfig =
      Paginate okStore { pNilFilter with filters := [] ++ [] } filterConfig :=
  c9_nil_filter_value_dropped okStore pNilFilter filterConfig "role" "role"
    [] [] rfl rfl

/-- C10: with an empty requested sort field and an empty `DefaultSort`,
the fetch carries no ORDER BY clause at all — whatever `SortDesc` and
`DefaultOrder` are — and `Paginate` succeeds whenever the store does. -/
theorem c10_no_sort_no_order_clause {Row : Type} (store : Store Row)
    (p : QueryParams) (c : PaginationConfig) (h1 : p.sortBy = "")
    (h2 : c.defaultSort = "") :
    (fetchQueryOf p c).orderBy = none ∧
    (∀ total rows, store.count (countQueryOf p c) = Except.ok total →
      store.find (fetchQueryOf p c) = Except.ok rows →
      (Paginate store p c).2 = Except.ok
        { data := rows
          total := total
          page := (normParams p c).page
          pageSize := (normParams p c).pageSize
          totalPages := ceilDiv total (normParams p c).pageSize }) := by
  constructor
  · rw [fetchQueryOf_orderBy]
    have hs : (normParams p c).sortBy = "" := by
      rw [normParams_sortBy, h1, if_pos rfl, h2]
    rw [hs, if_pos rfl]
  · intro total rows hcnt hfind
    unfold Paginate
    rw [hcnt, hfind]

/-- Witness for C10: `sortDesc = true` and `DefaultOrder = "ASC"` still
produce an unordered, successful fetch. -/
theorem c10_no_sort_no_order_clause_witness :
    (fetchQueryOf pDescFlag cOrderAsc).orderBy = none ∧
    (Paginate okStore pDescFlag cOrderAsc).2 = Except.ok
      ({ data := []
         total := 0
         page := (normParams pDescFlag cOrderAsc).page
         pageSize := (normParams pDescFlag cOrderAsc).pageSize
         totalPages := ceilDiv 0 (normParams pDescFlag cOrderAsc).pageSize }
        : PaginatedResponse Unit) :=
  ⟨(c10_no_sort_no_order_clause okStore pDescFlag cOrderAsc rfl rfl).1,
   (c10_no_sort_no_order_clause okStore pDescFlag cOrderAsc rfl rfl).2 0 [] rfl rfl⟩

end Pagination
